import Mathlib

/-!
Verification development for the autogtp match-orchestration core of this
repository (the `Game` class concatenated into `src/FastState.cpp`, lines
309-738, together with the `FastState` board-state helpers above it).

The C++ code is shallowly embedded below: every member function that the
claims touch is translated into a pure Lean function.  Mutable member
state (`m_passes`, `m_moveNum`, `m_resignation`, `m_blackResigned`,
`m_blackToMove`, `m_scoreEarly`) becomes an explicit `Game.State` record;
GTP responses, which the C++ code reads from the engine process, become
explicit `String` parameters.  Qt library routines used by the code
(`QString::split`, `QString::toInt`, `QString::toFloat`,
`QString::compare` with `Qt::CaseInsensitive`, `QString::contains`,
`QString::replace` with a `QRegularExpression`) are modelled by the
corresponding pure functions on `List Char` / `String` defined here.
-/

namespace Game

/-- Mutable member state of the C++ `Game` class (constructor at
`FastState.cpp:309-326` initialises `m_scoreEarly = false`,
`m_resignation = false`, `m_blackToMove = true`, `m_blackResigned = false`,
`m_passes = 0`, `m_moveNum = 0`). `m_passes`/`m_moveNum` are C++ `int`s
that the class only ever zeroes or increments, so they are embedded as
`Nat`. -/
structure State where
  scoreEarly : Bool := false
  resignation : Bool := false
  blackToMove : Bool := true
  blackResigned : Bool := false
  passes : Nat := 0
  moveNum : Nat := 0
deriving DecidableEq, Repr

/-- Model of `QString::compare(a, b, Qt::CaseInsensitive) == 0` for the
ASCII tokens this code compares ("pass", "resign", "black", ...). -/
def ciEqL (a b : List Char) : Bool :=
  a.map Char.toLower == b.map Char.toLower

/-- Case-insensitive equality on `String` (see `ciEqL`). -/
def ciEq (a b : String) : Bool :=
  ciEqL a.data b.data

/-- Model of `QString::split(sep)` for a one-character separator with the
default `Qt::KeepEmptyParts` behaviour: splitting the empty string gives
`[[]]`, and adjacent separators give empty parts. -/
def splitOnChar (sep : Char) (l : List Char) : List (List Char) :=
  l.foldr
    (fun c acc =>
      match acc with
      | [] => [[c]]
      | a :: as => if c = sep then [] :: a :: as else (c :: a) :: as)
    [[]]

/-- `Game::checkGameEnd` (`FastState.cpp:328-332`):
`m_resignation || m_passes > 1 || m_moveNum > (BOARD_SIZE * BOARD_SIZE * 2)`.
`BOARD_SIZE` is a compile-time constant from `config.h` (not part of this
translation unit), so it is a parameter here. -/
def checkGameEnd (BOARD_SIZE : Nat) (g : State) : Bool :=
  g.resignation || decide (g.passes > 1) ||
    decide (g.moveNum > BOARD_SIZE * BOARD_SIZE * 2)

/-- The move-token classification step of `Game::readMove`
(`FastState.cpp:527-536`).  The earlier steps of `readMove` read and frame
the GTP response (returning `false` on a malformed or dead-process
response without reaching this point); `moveDone` is the already-trimmed
response token.  Note that `readMove` touches neither `m_moveNum` nor
`m_blackToMove` (those are advanced by `Game::move` and `Game::nextMove`),
and that the `"resign"` branch does not touch `m_passes`. -/
def readMoveUpdate (g : State) (moveDone : String) : State :=
  if ciEq moveDone "pass" then
    { g with passes := g.passes + 1 }
  else if ciEq moveDone "resign" then
    { g with resignation := true, blackResigned := g.blackToMove }
  else
    { g with passes := 0 }

/-- `Game::setMove` (`FastState.cpp:540-558`).  `sendOk` is the result of
the `sendGtpCommand(m)` call: when it is `false` the function returns
`false` at once, before any member is written.  Otherwise `m_moveNum` is
incremented, the command `m` is split on spaces (`moves.at(2)` is the move
token, `moves.at(1)` the colour), the pass/resign classification runs, and
`m_blackToMove` is flipped.  The returned pair is
(C++ return value, state after the call). -/
def setMove (g : State) (sendOk : Bool) (m : String) : Bool × State :=
  if !sendOk then
    (false, g)
  else
    let g1 := { g with moveNum := g.moveNum + 1 }
    let moves := splitOnChar ' ' m.data
    let tok := moves.getD 2 []
    let g2 :=
      if ciEqL tok "pass".data then
        { g1 with passes := g1.passes + 1 }
      else if ciEqL tok "resign".data then
        { g1 with
          resignation := true,
          blackResigned := ciEqL (moves.getD 1 []) "black".data }
      else
        { g1 with passes := 0 }
    (true, { g2 with blackToMove := !g2.blackToMove })

/-- Numeric value of a list of decimal digit characters. -/
def digitsVal (l : List Char) : Nat :=
  l.foldl (fun a c => 10 * a + (c.toNat - 48)) 0

/-- Model of `QString::toInt()` (no base prefix): an optional sign
followed by at least one decimal digit parses to its value, anything else
returns 0. -/
def qToIntL (l : List Char) : Int :=
  match l with
  | '-' :: r =>
      if !r.isEmpty && r.all Char.isDigit then -(digitsVal r : Int) else 0
  | '+' :: r =>
      if !r.isEmpty && r.all Char.isDigit then (digitsVal r : Int) else 0
  | r =>
      if !r.isEmpty && r.all Char.isDigit then (digitsVal r : Int) else 0

/-- Model of the parsing core of `QString::toFloat(bool *ok)` for the
plain decimal forms the engine reports: optional sign, integer digits,
optionally a '.' and fraction digits.  `none` is a parse failure. -/
def qParseFloat (l : List Char) : Option ℚ :=
  let signAndBody : ℚ × List Char :=
    match l with
    | '-' :: r => (-1, r)
    | '+' :: r => (1, r)
    | r => (1, r)
  match splitOnChar '.' signAndBody.2 with
  | [ip] =>
      if !ip.isEmpty && ip.all Char.isDigit then
        some (signAndBody.1 * digitsVal ip)
      else none
  | [ip, fp] =>
      if !ip.isEmpty && !fp.isEmpty && ip.all Char.isDigit
          && fp.all Char.isDigit then
        some (signAndBody.1 *
          ((digitsVal ip : ℚ) + (digitsVal fp : ℚ) / 10 ^ fp.length))
      else none
  | _ => none

/-- Model of `QString::toFloat(bool *ok)`: returns the parsed value and a
success flag; on failure the returned value is 0.0 (documented Qt
behaviour, relied on by the comments at `FastState.cpp:617` and `:627`). -/
def qToFloatQ (s : String) : ℚ × Bool :=
  match qParseFloat s.data with
  | some v => (v, true)
  | none => (0, false)

/-- The error codes printed by `Game::error` (`FastState.cpp:334-358`). -/
inductive Err
  | NO_LEELAZ
  | PROCESS_DIED
  | WRONG_GTP
  | LAUNCH_FAILURE
deriving DecidableEq, Repr

/-- Outcome of the version gate `Game::checkVersion`. -/
inductive VersionOutcome
  | pass
  | exitTooOld
  | exitMalformed
deriving DecidableEq, Repr

/-- The `versionCount` computation of `Game::checkVersion`
(`FastState.cpp:440-445`): the response body is split on '.', a missing
third (patch) component is defaulted to `"0"`, and
`versionCount = (major - minMajor) * 10000 + (minor - minMinor) * 100 +
(patch - minPatch)`, each component read with `QString::toInt`. -/
def versionCountOf (versionBuff : String) (minVersion : Int × Int × Int) : Int :=
  let l0 := splitOnChar '.' versionBuff.data
  let l := if l0.length < 3 then l0 ++ ["0".data] else l0
  (qToIntL (l.getD 0 []) - minVersion.1) * 10000 +
    (qToIntL (l.getD 1 []) - minVersion.2.1) * 100 +
    (qToIntL (l.getD 2 []) - minVersion.2.2)

/-- The decision logic of `Game::checkVersion` (`FastState.cpp:434-456`)
after a well-framed `version` response has been read into
`versionBuff`: fewer than two '.'-separated components is an
"Unexpected Leela Zero version" `exit(EXIT_FAILURE)`; otherwise the
process exits with the version-too-old report exactly when
`versionCount < 0`. -/
def checkVersion (versionBuff : String) (minVersion : Int × Int × Int) :
    VersionOutcome :=
  if (splitOnChar '.' versionBuff.data).length < 2 then
    .exitMalformed
  else if versionCountOf versionBuff minVersion < 0 then
    .exitTooOld
  else
    .pass

/-- `Game::getScoreEstimateMean` (`FastState.cpp:613-621`): the trimmed
response to `estimate_score_mean` is parsed with `toFloat`; a parse
failure leaves the value at 0.0 and prints the `WRONG_GTP` diagnostic;
the value is returned either way (the match is not aborted).  The second
component collects the diagnostics printed by the call. -/
def getScoreEstimateMean (resp : String) : ℚ × List Err :=
  let p := qToFloatQ resp
  (p.1, if p.2 then [] else [Err.WRONG_GTP])

/-- `Game::getScoreEstimateStandardDeviation` (`FastState.cpp:623-631`):
identical handling for the `estimate_score_standard_deviation` query. -/
def getScoreEstimateStandardDeviation (resp : String) : ℚ × List Err :=
  let p := qToFloatQ resp
  (p.1, if p.2 then [] else [Err.WRONG_GTP])

/-- Nearest-integer rounding of `1000 * q` (halves up), that is
`⌊1000 q + 1/2⌋`, computed directly on the numerator and denominator so
that it evaluates by pure integer arithmetic. -/
def roundTimes1000 (q : ℚ) : Int :=
  Int.fdiv (2 * (1000 * q.num) + q.den) (2 * q.den)

/-- Model of `QString().setNum(x, 'f', 3)`: fixed-point rendering with
exactly three decimals, rounding to the nearest thousandth. -/
def formatF3 (q : ℚ) : String :=
  let n : Int := roundTimes1000 q
  let sign := if n < 0 then "-" else ""
  let m := n.natAbs
  let fracDigits := toString (m % 1000)
  sign ++ toString (m / 1000) ++ "." ++
    String.mk (List.replicate (3 - fracDigits.length) '0') ++ fracDigits

/-- The result tag built by the early-estimate branch of `Game::getScore`
(`FastState.cpp:586-589`): `"0"` when the mean is exactly zero, otherwise
`"B+"` for a positive mean and `"W+"` for a negative one, followed by
`abs(mean)` rendered to three decimals. -/
def earlyResultTag (mean : ℚ) : String :=
  if mean = 0 then "0"
  else (if 0 < mean then "B+" else "W+") ++ formatF3 |mean|

/-- First character of `m_result` (`m_result[0]` at
`FastState.cpp:593-599`); the null character stands for the out-of-range
read on an empty string. -/
def firstChar (s : String) : Char :=
  s.data.headD (Char.ofNat 0)

/-- `Game::getScore` (`FastState.cpp:568-611`).  Member and engine inputs
become parameters: `resignation`/`blackResigned`/`scoreEarly` are the
member flags (`scoreEarly` is the argument of the call), `mean` is the
value obtained from `getScoreEstimateMean`, `winRateStr` is the
three-decimal rendering of the computed `winRate` (the real-valued
`winRate` itself is modelled separately as `Game.winRate`), and
`finalResp` is the trimmed `final_score` response.  The value is
`some (m_winner, m_result)`, or `none` when no branch sets a winner and
the function prints "No winner found" and returns `false`. -/
def getScore (resignation blackResigned scoreEarly : Bool)
    (mean : ℚ) (winRateStr : String) (finalResp : String) :
    Option (String × String) :=
  if resignation then
    if blackResigned then some ("white", "W+Resign : 0.000")
    else some ("black", "B+Resign : 1.000")
  else if scoreEarly then
    some ("early", earlyResultTag mean ++ " : " ++ winRateStr)
  else if firstChar finalResp = 'W' then
    some ("white", finalResp ++ " : 0.000")
  else if firstChar finalResp = 'B' then
    some ("black", finalResp ++ " : 1.000")
  else if firstChar finalResp = '0' then
    some ("panda", finalResp ++ " : 0.500")
  else
    none

/-- Case-insensitive prefix test: `needle` occurs at the head of `s` up
to ASCII case. -/
def startsWithCI (needle s : List Char) : Bool :=
  (s.take needle.length).map Char.toLower == needle.map Char.toLower

/-- Model of `QString::contains(needle, Qt::CaseInsensitive)`. -/
def containsCI (s needle : List Char) : Bool :=
  (List.range (s.length + 1)).any fun i => startsWithCI needle (s.drop i)

/-- The current line of `s`: the characters before the next '\n' ('.' in
a default `QRegularExpression` matches everything except '\n'). -/
def lineSeg (s : List Char) : List Char :=
  s.takeWhile fun c => c != '\n'

/-- Index of the last ']' on the current line of `s`, if any: the
position at which the greedy `.*\]` tail of the result-tag patterns ends
its match. -/
def lastCloseIdx (s : List Char) : Option Nat :=
  ((List.range (lineSeg s).length).filter
    fun i => (lineSeg s).getD i ' ' == ']').getLast?

/-- Model of `QString::replace(QRegularExpression(<head>.*\]), repl)`:
global left-to-right replacement.  At each position where the literal
`head` matches (regex matching is case-sensitive), the greedy `.*\]` tail
extends the match to the last ']' on the current line — if the line has
no further ']' the position does not match at all — and scanning resumes
after the matched span, as Qt's global replace does.  `fuel` bounds the
recursion; `s.length` suffices since every step consumes at least one
character. -/
def replaceGreedyREAux (head repl : List Char) : Nat → List Char → List Char
  | _, [] => []
  | 0, s => s
  | fuel + 1, c :: cs =>
    if head.isPrefixOf (c :: cs) then
      match lastCloseIdx ((c :: cs).drop head.length) with
      | some k =>
          repl ++ replaceGreedyREAux head repl fuel
            (((c :: cs).drop head.length).drop (k + 1))
      | none => c :: replaceGreedyREAux head repl fuel cs
    else c :: replaceGreedyREAux head repl fuel cs

/-- See `replaceGreedyREAux`. -/
def replaceGreedyRE (head repl s : List Char) : List Char :=
  replaceGreedyREAux head repl s.length s

/-- Model of `QString::replace` for the purely literal pattern
`;W\[tt\]\)` (every character escaped): global leftmost replacement of a
literal substring. -/
def replaceAllLitAux (pat repl : List Char) : Nat → List Char → List Char
  | _, [] => []
  | 0, s => s
  | fuel + 1, c :: cs =>
    if !pat.isEmpty && pat.isPrefixOf (c :: cs) then
      repl ++ replaceAllLitAux pat repl fuel ((c :: cs).drop pat.length)
    else c :: replaceAllLitAux pat repl fuel cs

/-- See `replaceAllLitAux`. -/
def replaceAllLit (pat repl s : List Char) : List Char :=
  replaceAllLitAux pat repl s.length s

/-- The resignation branch of `Game::fixSgf` (`FastState.cpp:693-703`):
replace every match of `RE\[B\+.*\]` by `"RE[B+Resign] "`; if the text
then does not contain `"RE[B+Resign] "` (case-insensitively), replace
every match of `RE\[W\+.*\]` by that same replacement; finally strip the
trailing synthetic pass, replacing the literal `";W[tt])"` by `")"`. -/
def fixSgfResign (sgfData : List Char) : List Char :=
  let s1 := replaceGreedyRE "RE[B+".data "RE[B+Resign] ".data sgfData
  let s2 :=
    if containsCI s1 "RE[B+Resign] ".data then s1
    else replaceGreedyRE "RE[W+".data "RE[B+Resign] ".data s1
  replaceAllLit ";W[tt])".data ")".data s2

/-- The winner constants of the `Game` class used by `Game::getWinner`. -/
inductive Winner
  | BLACK
  | WHITE
  | PANDA
  | EARLY
deriving DecidableEq, Repr

/-- `Game::getWinner` (`FastState.cpp:633-642`): case-insensitive
comparison of the `m_winner` string against "white", "black", "panda",
with `EARLY` as the fall-through. -/
def getWinner (winner : String) : Winner :=
  if ciEq winner "white" then .WHITE
  else if ciEq winner "black" then .BLACK
  else if ciEq winner "panda" then .PANDA
  else .EARLY

/-- The constant `piOverSqrt3` hardcoded at `FastState.cpp:584`: the
source writes the decimal literal
`1.8137993642342178505940782576421557322840662480927405755698849353881231811`,
the decimal expansion of pi / sqrt 3 to 73 fractional digits, embedded
here as the exact rational it denotes. -/
noncomputable def piOverSqrt3 : ℝ :=
  18137993642342178505940782576421557322840662480927405755698849353881231811 /
    10 ^ 73

/-- The win-rate computed by the early-estimate branch of `Game::getScore`
(`FastState.cpp:585`):
`winRate = 1.0 / (1.0 + exp(-mean * piOverSqrt3 / stdDev))`,
modelled over the reals. -/
noncomputable def winRate (mean stdDev : ℝ) : ℝ :=
  1 / (1 + Real.exp (-mean * piOverSqrt3 / stdDev))

/-- The confidence field of a recorded result string: every result the
code records has the shape "margin : confidence", so the confidence is
the final space-separated token. -/
def resultConfidence (result : String) : String :=
  String.mk ((result.data.reverse.takeWhile (fun c => c ≠ ' ')).reverse)

end Game

/-- Claim C1: `Game::checkGameEnd` holds iff the resignation flag is set,
or the consecutive-pass count is strictly greater than 1, or the move
number is strictly greater than 2 times the squared board dimension. -/
theorem checkGameEnd_iff (BOARD_SIZE : Nat) (g : Game.State) :
    Game.checkGameEnd BOARD_SIZE g = true ↔
      (g.resignation = true ∨ 1 < g.passes ∨ 2 * BOARD_SIZE ^ 2 < g.moveNum) := by
  have h : BOARD_SIZE * BOARD_SIZE * 2 = 2 * BOARD_SIZE ^ 2 := by ring
  simp [Game.checkGameEnd, h, Bool.or_eq_true, decide_eq_true_eq, or_assoc]

/-- On a parse failure `Game.qToFloatQ` yields the value 0 (Qt's
`toFloat` failure value). -/
theorem qToFloatQ_of_fail (r : String) (h : (Game.qToFloatQ r).2 = false) :
    Game.qToFloatQ r = (0, false) := by
  unfold Game.qToFloatQ at h ⊢
  cases hp : Game.qParseFloat r.data <;> simp [hp] at h ⊢

/-- Claim C2 counterexample: with the resignation flag set and black the
resigning side, the winner is white but the recorded confidence field is
"0.000", not "1.000" (the recorded value is the black-win probability,
exactly as in the `'W'` branch of final scoring). The estimate inputs
(mean 7, rendered win-rate "0.9") are ignored. -/
theorem getScore_resign_counterexample :
    Game.getScore true true true 7 "0.9" "B+3" =
      some ("white", "W+Resign : 0.000") ∧
    Game.resultConfidence "W+Resign : 0.000" = "0.000" ∧
    decide (("0.000" : String) = "1.000") = false := by
  refine ⟨rfl, rfl, by decide⟩

/-- Claim C2 (amended): whenever scoring runs with the resignation flag
set, the winner is the side opposite the resigning side and the recorded
result is the nominal sentinel tag with no numeric margin —
"W+Resign : 0.000" when black resigned and "B+Resign : 1.000" when white
resigned (the recorded confidence value is black's win probability, so it
is 1.0 exactly when black is the winner) — independently of the
early-scoring request, of the estimate mean and of the rendered win rate
or final-score response. -/
theorem getScore_resign_amended (blackResigned scoreEarly : Bool)
    (mean : ℚ) (winRateStr finalResp : String) :
    Game.getScore true blackResigned scoreEarly mean winRateStr finalResp =
      (if blackResigned then some ("white", "W+Resign : 0.000")
       else some ("black", "B+Resign : 1.000")) := by
  cases blackResigned <;> simp [Game.getScore]

/-- Claim C3 counterexample: "resign" is a non-"pass" token, yet after it
is processed — in `readMove` as in `setMove` — the consecutive-pass count
keeps its prior value 1 instead of resetting to 0 (the resign branch of
both functions leaves `m_passes` untouched). -/
theorem passes_reset_counterexample :
    Game.ciEq "resign" "pass" = false ∧
    (Game.readMoveUpdate ⟨false, false, true, false, 1, 5⟩ "resign").passes = 1 ∧
    (Game.setMove ⟨false, false, true, false, 1, 5⟩ true
        "play white resign").2.passes = 1 ∧
    decide ((1 : Nat) = 0) = false := by
  refine ⟨by decide, rfl, rfl, by decide⟩

/-- Claim C3 (amended): in both engine-driven mode (`readMove`) and replay
mode (`setMove`), a "pass" token (case-insensitive) increments the
consecutive-pass count by exactly 1 and a token that is neither "pass" nor
"resign" resets it to 0; a "resign" token leaves the count unchanged. -/
theorem passes_update_characterisation (g : Game.State) (tok m : String) :
    (Game.readMoveUpdate g tok).passes =
      (if Game.ciEq tok "pass" then g.passes + 1
       else if Game.ciEq tok "resign" then g.passes
       else 0) ∧
    (Game.setMove g true m).2.passes =
      (if Game.ciEqL ((Game.splitOnChar ' ' m.data).getD 2 []) "pass".data then
        g.passes + 1
       else if Game.ciEqL ((Game.splitOnChar ' ' m.data).getD 2 []) "resign".data then
        g.passes
       else 0) := by
  constructor
  · unfold Game.readMoveUpdate
    split_ifs <;> rfl
  · unfold Game.setMove
    simp only [Bool.not_true, Bool.false_eq_true, if_false]
    split_ifs <;> rfl

/-- Claim C4: the version gate splits the response on '.', defaults a
missing patch component to "0" and computes
`versionCount = (major - minMajor) * 10000 + (minor - minMinor) * 100 +
(patch - minPatch)` (`Game.versionCountOf`); among well-formed responses
(at least two '.'-separated components — fewer is a separate malformed
exit) the process is terminated with the version-too-old report exactly
when `versionCount` is negative.  Against minimum version (0,18,0):
"0.17" fails (count -100) while "0.18.0" and "1.0" pass (for "1.0" the
patch defaults to 0, count 8200). -/
theorem checkVersion_spec :
    (∀ (v : String) (minv : Int × Int × Int),
      Game.checkVersion v minv = Game.VersionOutcome.exitTooOld ↔
        2 ≤ (Game.splitOnChar '.' v.data).length ∧
          Game.versionCountOf v minv < 0) ∧
    Game.checkVersion "0.17" (0, 18, 0) = Game.VersionOutcome.exitTooOld ∧
    Game.checkVersion "0.18.0" (0, 18, 0) = Game.VersionOutcome.pass ∧
    Game.checkVersion "1.0" (0, 18, 0) = Game.VersionOutcome.pass ∧
    Game.versionCountOf "0.17" (0, 18, 0) = -100 ∧
    Game.versionCountOf "1.0" (0, 18, 0) = 8200 := by
  refine ⟨?_, by decide, by decide, by decide, by decide, by decide⟩
  intro v minv
  unfold Game.checkVersion
  split_ifs with h1 h2
  · simp
    omega
  · simp
    omega
  · simp
    omega

/-- Claim C5 counterexample: a final-score response with leading 'W'
yields winner white, but the recorded confidence field is "0.000", not
"1.000" (the recorded value is the black-win probability). -/
theorem finalScore_counterexample :
    Game.getScore false false false 0 "" "W+12.500" =
      some ("white", "W+12.500 : 0.000") ∧
    Game.resultConfidence "W+12.500 : 0.000" = "0.000" ∧
    decide (("0.000" : String) = "1.000") = false := by
  refine ⟨rfl, rfl, by decide⟩

/-- Claim C5 (amended): in authoritative final scoring a leading 'B'
yields winner black with the stated margin and recorded confidence 1.000;
a leading 'W' yields winner white with the stated margin and recorded
confidence 0.000 (the recorded value encodes black's win probability); a
leading '0' yields the distinguished neutral winner "panda" with recorded
confidence 0.500; response "B+12.500" persists as "B+12.500 : 1.000". -/
theorem finalScore_amended :
    (∀ (resp : String) (mean : ℚ) (w : String),
      (Game.firstChar resp = 'B' →
        Game.getScore false false false mean w resp =
          some ("black", resp ++ " : 1.000")) ∧
      (Game.firstChar resp = 'W' →
        Game.getScore false false false mean w resp =
          some ("white", resp ++ " : 0.000")) ∧
      (Game.firstChar resp = '0' →
        Game.getScore false false false mean w resp =
          some ("panda", resp ++ " : 0.500"))) ∧
    Game.getScore false false false 0 "" "B+12.500" =
      some ("black", "B+12.500 : 1.000") := by
  refine ⟨?_, rfl⟩
  intro resp mean w
  refine ⟨?_, ?_, ?_⟩ <;> intro h <;> simp [Game.getScore, h]

/-- Witness for the amended C5 theorem at the concrete response
"W+12.500". -/
theorem finalScore_amended_witness :
    Game.getScore false false false 0 "" "W+12.500" =
      some ("white", "W+12.500 : 0.000") :=
  (finalScore_amended.1 "W+12.500" 0 "").2.1 (by decide)

/-- Claim C6 counterexample: in early-estimate scoring with the strictly
positive mean 5, the result tag direction is "B+" but the winner label is
the mode marker "early" — `getWinner` returns `EARLY`, not `BLACK` — so
the winner is not determined by the sign of the mean. -/
theorem earlyWinner_counterexample :
    decide ((0 : ℚ) < 5) = true ∧
    Game.getScore false false true 5 "0.998" "" =
      some ("early", "B+5.000 : 0.998") ∧
    Game.getWinner "early" = Game.Winner.EARLY ∧
    decide (Game.Winner.EARLY = Game.Winner.BLACK) = false := by
  refine ⟨by decide, by decide, rfl, by decide⟩

/-- Claim C6 (amended): in early-estimate scoring the result-tag
direction is determined by the sign of the queried mean — "B+" for a
positive mean, "W+" for a negative one, the neutral tag "0" for a mean of
exactly zero — with margin magnitude `abs mean` rendered to 3 decimals;
the winner label, however, is always the distinguished mode marker
"early" (`getWinner` = `EARLY`), regardless of the sign of the mean. -/
theorem earlyScore_amended :
    (∀ (mean : ℚ) (w f : String),
      Game.getScore false false true mean w f =
        some ("early", Game.earlyResultTag mean ++ " : " ++ w) ∧
      (0 < mean →
        Game.earlyResultTag mean = "B+" ++ Game.formatF3 |mean|) ∧
      (mean < 0 →
        Game.earlyResultTag mean = "W+" ++ Game.formatF3 |mean|) ∧
      (mean = 0 → Game.earlyResultTag mean = "0")) ∧
    Game.getWinner "early" = Game.Winner.EARLY := by
  refine ⟨?_, rfl⟩
  intro mean w f
  refine ⟨by simp [Game.getScore], ?_, ?_, ?_⟩
  · intro h
    simp [Game.earlyResultTag, h, h.ne']
  · intro h
    simp [Game.earlyResultTag, h.ne, not_lt.mpr h.le]
  · intro h
    simp [Game.earlyResultTag, h]

/-- Witness for the amended C6 theorem at the concrete mean 5. -/
theorem earlyScore_amended_witness :
    Game.getScore false false true 5 "0.998" "x" =
      some ("early", Game.earlyResultTag 5 ++ " : " ++ "0.998") ∧
    Game.earlyResultTag 5 = "B+" ++ Game.formatF3 |(5 : ℚ)| :=
  ⟨(earlyScore_amended.1 5 "0.998" "x").1,
   (earlyScore_amended.1 5 "0.998" "x").2.1 (by norm_num)⟩

/-- Claim C8: for both score-estimate queries, an unparsable numeric
response yields the value 0.0 together with the printed `WRONG_GTP`
protocol diagnostic; the function still returns a value, so scoring
continues instead of aborting the match. -/
theorem estimate_parse_degrade (respM respS : String)
    (hm : (Game.qToFloatQ respM).2 = false)
    (hs : (Game.qToFloatQ respS).2 = false) :
    Game.getScoreEstimateMean respM = (0, [Game.Err.WRONG_GTP]) ∧
    Game.getScoreEstimateStandardDeviation respS =
      (0, [Game.Err.WRONG_GTP]) := by
  constructor
  · simp [Game.getScoreEstimateMean, qToFloatQ_of_fail respM hm]
  · simp [Game.getScoreEstimateStandardDeviation, qToFloatQ_of_fail respS hs]

/-- Witness for C8 at the concrete unparsable responses "PROCESS_DIED"
(the protocol failure sentinel) and "abc". -/
theorem estimate_parse_degrade_witness :
    (Game.qToFloatQ "PROCESS_DIED").2 = false ∧
    (Game.qToFloatQ "abc").2 = false ∧
    Game.getScoreEstimateMean "PROCESS_DIED" = (0, [Game.Err.WRONG_GTP]) ∧
    Game.getScoreEstimateStandardDeviation "abc" =
      (0, [Game.Err.WRONG_GTP]) :=
  ⟨by decide, by decide,
   (estimate_parse_degrade "PROCESS_DIED" "abc" (by decide) (by decide)).1,
   (estimate_parse_degrade "PROCESS_DIED" "abc" (by decide) (by decide)).2⟩

/-- The source's hardcoded logistic constant is strictly positive. -/
theorem piOverSqrt3_pos : 0 < Game.piOverSqrt3 := by
  unfold Game.piOverSqrt3
  positivity

/-- Claim C7: the early-estimate confidence
`winRate = 1 / (1 + exp(-mean * piOverSqrt3 / stdDev))` satisfies, for
every fixed positive standard deviation: a mean of 0 gives exactly 1/2,
the win rate tends to 1 as the mean tends to plus infinity, and it tends
to 0 as the mean tends to minus infinity. -/
theorem winRate_logistic (stdDev : ℝ) (h : 0 < stdDev) :
    Game.winRate 0 stdDev = 1 / 2 ∧
    Filter.Tendsto (fun mean => Game.winRate mean stdDev)
      Filter.atTop (nhds 1) ∧
    Filter.Tendsto (fun mean => Game.winRate mean stdDev)
      Filter.atBot (nhds 0) := by
  have hc : 0 < Game.piOverSqrt3 / stdDev := div_pos piOverSqrt3_pos h
  have harg : (fun mean : ℝ => -mean * Game.piOverSqrt3 / stdDev) =
      fun mean : ℝ => -(mean * (Game.piOverSqrt3 / stdDev)) := by
    funext mean
    ring
  refine ⟨?_, ?_, ?_⟩
  · simp [Game.winRate, Real.exp_zero]
    norm_num
  · have h1 : Filter.Tendsto (fun mean : ℝ => -mean * Game.piOverSqrt3 / stdDev)
        Filter.atTop Filter.atBot := by
      rw [harg]
      exact Filter.tendsto_neg_atTop_atBot.comp
        (Filter.tendsto_id.atTop_mul_const hc)
    have h2 : Filter.Tendsto
        (fun mean : ℝ => 1 + Real.exp (-mean * Game.piOverSqrt3 / stdDev))
        Filter.atTop (nhds (1 + 0)) :=
      Filter.Tendsto.const_add 1 (Real.tendsto_exp_atBot.comp h1)
    have h3 : Filter.Tendsto
        (fun mean : ℝ => (1 + Real.exp (-mean * Game.piOverSqrt3 / stdDev))⁻¹)
        Filter.atTop (nhds (1 + 0)⁻¹) := h2.inv₀ (by norm_num)
    simpa [Game.winRate, one_div] using h3
  · have h1 : Filter.Tendsto (fun mean : ℝ => -mean * Game.piOverSqrt3 / stdDev)
        Filter.atBot Filter.atTop := by
      rw [harg]
      exact Filter.tendsto_neg_atBot_atTop.comp
        (Filter.tendsto_id.atBot_mul_const hc)
    have h2 : Filter.Tendsto
        (fun mean : ℝ => 1 + Real.exp (-mean * Game.piOverSqrt3 / stdDev))
        Filter.atBot Filter.atTop :=
      Filter.tendsto_atTop_add_const_left _ 1 (Real.tendsto_exp_atTop.comp h1)
    have h3 : Filter.Tendsto
        (fun mean : ℝ => (1 + Real.exp (-mean * Game.piOverSqrt3 / stdDev))⁻¹)
        Filter.atBot (nhds 0) := h2.inv_tendsto_atTop
    simpa [Game.winRate, one_div] using h3

/-- Witness for C7 at the concrete standard deviation 1. -/
theorem winRate_logistic_witness :
    (0 : ℝ) < 1 ∧
    (Game.winRate 0 1 = 1 / 2 ∧
     Filter.Tendsto (fun mean => Game.winRate mean 1)
       Filter.atTop (nhds 1) ∧
     Filter.Tendsto (fun mean => Game.winRate mean 1)
       Filter.atBot (nhds 0)) :=
  ⟨by norm_num, winRate_logistic 1 (by norm_num)⟩

/-- Claim C9 counterexample: the resignation rewrite is not idempotent.
The transcript below already carries the canonical resignation tag
"RE[B+Resign] " (with its trailing space, exactly as a previous rewrite
leaves it), yet re-applying the rewrite changes the text: the primary
pattern `RE\[B\+.*\]` re-matches the tag without its trailing space and
the replacement "RE[B+Resign] " re-adds one, yielding a double space. -/
theorem fixSgfResign_not_idempotent :
    Game.containsCI "(;GM[1]RE[B+Resign] \n;B[aa]\n)".data
      "RE[B+Resign] ".data = true ∧
    Game.fixSgfResign "(;GM[1]RE[B+Resign] \n;B[aa]\n)".data =
      "(;GM[1]RE[B+Resign]  \n;B[aa]\n)".data ∧
    decide (Game.fixSgfResign "(;GM[1]RE[B+Resign] \n;B[aa]\n)".data =
      "(;GM[1]RE[B+Resign] \n;B[aa]\n)".data) = false := by
  refine ⟨by decide, by decide, by decide⟩

/-- Claim C9 (amended): the rewrite tries the primary (black-won) result
pattern first and applies the secondary (white-won) pattern only if the
primary produced no canonical resignation tag, and it strips a trailing
synthetic pass token; but it is not idempotent — re-applying it to a
transcript already carrying the canonical tag inserts an extra space
after the tag, because the pattern match ends at the tag's ']' while the
replacement text carries a trailing space.  Demonstrated on concrete
transcripts: a black-won tag is rewritten by the primary pattern; a
white-won tag is rewritten by the fallback; when the primary pattern
matches, a remaining white-won tag is left untouched; the trailing
";W[tt])" is stripped; and a second application of the rewrite changes
the output of the first one. -/
theorem fixSgfResign_amended :
    Game.fixSgfResign "(;GM[1]RE[B+5.5]\n;B[aa]\n)".data =
      "(;GM[1]RE[B+Resign] \n;B[aa]\n)".data ∧
    Game.fixSgfResign "(;GM[1]RE[W+5.5]\n;B[aa]\n)".data =
      "(;GM[1]RE[B+Resign] \n;B[aa]\n)".data ∧
    Game.fixSgfResign "(;RE[B+2]\nRE[W+3]\n)".data =
      "(;RE[B+Resign] \nRE[W+3]\n)".data ∧
    Game.fixSgfResign "(;RE[B+1]\n;B[aa];W[tt])".data =
      "(;RE[B+Resign] \n;B[aa])".data ∧
    Game.fixSgfResign
        (Game.fixSgfResign "(;GM[1]RE[B+5.5]\n;B[aa]\n)".data) =
      "(;GM[1]RE[B+Resign]  \n;B[aa]\n)".data := by
  refine ⟨by decide, by decide, by decide, by decide, by decide⟩

/-- Claim C10: when the protocol submission inside `Game::setMove` fails
(`sendGtpCommand` returns `false`), `setMove` returns `false` and the
entire match state — move number, consecutive-pass count, resignation
flag, resigning side and side-to-move — is unchanged. -/
theorem setMove_sendFail_unchanged (g : Game.State) (m : String) :
    Game.setMove g false m = (false, g) := by
  rfl
